/- Verification development for the travel-app backend (src/backend/main.py).

   Shallow embedding notes:
   - Python strings are modelled as Lean `String` (a wrapper around `List Char`);
     `str.strip()` is `pyStrip`, `str.lower()` is `pyLower` (ASCII case mapping:
     all inputs appearing in the claims are ASCII).
   - `re.findall(r'Day \d+: (.*?)\n', text, re.IGNORECASE)` is modelled by the
     scanner `findAll`: at each position it tries to match "Day " (letters case
     insensitively), a maximal nonempty digit run, ": ", then a non-greedy group
     of non-newline characters terminated by a literal '\n'.  Since `.` does not
     match '\n' and the only '\n' of the pattern is final, every regex match is
     exactly such a segment, the scanner advances one character on failure and
     past the whole match on success, as `re.findall` does.  `\d` is modelled as
     the ASCII digit test (claim inputs are ASCII).
   - Floating point series from the weather payload are modelled as rationals;
     the format specifier `%.1f` is `fmt1` (round half to even at one decimal,
     which is exact for the decimal-valued series in the claims).
   - External collaborators (Mistral completion, geopy geocoding, open-meteo
     HTTP fetch) are oracle parameters.  A Python exception raised by a
     collaborator is an `Except.error` carrying `str(e)`; the open-meteo payload
     is modelled as the pair of the two `data.get("hourly", {}).get(..., [])`
     series (missing keys collapse to empty lists exactly as in the source).
   - `datetime.datetime.strptime(arrivalDate, "%Y-%m-%d")` on a well-formed date
     string is modelled by passing the parsed `PyDate` directly;
     `datetime.timedelta(days=6)` addition is `addDays · 6` on the proleptic
     Gregorian calendar, as in CPython. -/
import Mathlib

/-- Python whitespace test used by `str.strip()` (ASCII whitespace). -/
def isPySpace (c : Char) : Bool :=
  c = ' ' ∨ c = '\t' ∨ c = '\n' ∨ c = '\r' ∨ c = '\x0b' ∨ c = '\x0c'

/-- Model of Python `str.strip()`. -/
def pyStrip (s : String) : String :=
  ⟨((s.data.dropWhile isPySpace).reverse.dropWhile isPySpace).reverse⟩

/-- ASCII lower-casing of one character. -/
def lowerChar (c : Char) : Char :=
  if 'A' ≤ c ∧ c ≤ 'Z' then Char.ofNat (c.toNat + 32) else c

/-- Model of Python `str.lower()` (ASCII). -/
def pyLower (s : String) : String := ⟨s.data.map lowerChar⟩

/-- Model of Python `sep.join(list)`. -/
def joinWith (sep : String) : List String → String
  | [] => ""
  | [s] => s
  | s :: rest => s ++ sep ++ joinWith sep rest

/-- Matches the literal "Day " of the pattern, case-insensitively on the
    letters (re.IGNORECASE), returning the remainder. -/
def matchDay : List Char → Option (List Char)
  | c1 :: c2 :: c3 :: c4 :: rest =>
    if (c1 = 'D' ∨ c1 = 'd') ∧ (c2 = 'A' ∨ c2 = 'a') ∧ (c3 = 'Y' ∨ c3 = 'y') ∧ c4 = ' ' then
      some rest
    else none
  | _ => none

/-- The non-greedy group `(.*?)` followed by the literal `\n`: the characters up
    to the first newline, which must exist. -/
def takeGroup : List Char → Option (List Char × List Char)
  | [] => none
  | c :: rest =>
    if c = '\n' then some ([], rest)
    else
      match takeGroup rest with
      | some (g, r) => some (c :: g, r)
      | none => none

/-- After the digit run, the pattern requires the literal ": " and then the
    group. -/
def matchAfterDigits : List Char → Option (List Char × List Char)
  | a :: b :: rest => if a = ':' ∧ b = ' ' then takeGroup rest else none
  | _ => none

/-- `\d+: (.*?)\n`: a nonempty maximal digit run, then ": ", then the group. -/
def matchRest (t : List Char) : Option (List Char × List Char) :=
  match t with
  | c :: _ => if c.isDigit then matchAfterDigits (t.dropWhile Char.isDigit) else none
  | [] => none

/-- A match of the full pattern `Day \d+: (.*?)\n` anchored at the head of `s`,
    returning the group and the remainder after the match. -/
def matchAt (s : List Char) : Option (List Char × List Char) :=
  match matchDay s with
  | some t => matchRest t
  | none => none

/-- Scanner for `re.findall`: on failure advance one character, on success emit
    the group and continue after the match.  The fuel argument only serves
    structural termination; `length s` fuel is always sufficient because every
    step consumes at least one character. -/
def findAllAux : ℕ → List Char → List (List Char)
  | 0, _ => []
  | fuel + 1, s =>
    match matchAt s with
    | some (g, r) => g :: findAllAux fuel r
    | none =>
      match s with
      | [] => []
      | _ :: rest => findAllAux fuel rest

/-- `re.findall(r'Day \d+: (.*?)\n', s, re.IGNORECASE)`. -/
def findAll (s : List Char) : List (List Char) := findAllAux s.length s

/-- `match.split(',')[0]` when a comma is present, otherwise the whole string:
    the characters before the first comma. -/
def splitFirstComma (s : List Char) : List Char := s.takeWhile (fun c => c ≠ ',')

/-- First-occurrence de-duplication, modelling `list(set(cities))` up to order
    (CPython's set iteration order is unspecified, so claims about the result
    are stated at the level of the underlying set of elements). -/
def dedupAux : List String → List String → List String
  | [], _ => []
  | s :: rest, seen =>
    if s ∈ seen then dedupAux rest seen else s :: dedupAux rest (s :: seen)

/-- `list(set(l))`, deterministically ordered by first occurrence. -/
def pySet (l : List String) : List String := dedupAux l []

/-- src/backend/main.py lines 188-200: `extract_cities`.  For each regex match:
    truncate at the first comma, strip whitespace, keep it when nonempty and
    distinct (case-insensitively) from the country, then de-duplicate. -/
def extract_cities (itinerary_text country : String) : List String :=
  let ms := findAll itinerary_text.data
  let cities := ms.filterMap (fun m =>
    let city := pyStrip ⟨splitFirstComma m⟩
    if city ≠ "" ∧ pyLower city ≠ pyLower country then some city else none)
  pySet cities

example : extract_cities "Day 1: Arrival in Paris\nDay 2: Lyon, France\n" "France" =
    ["Arrival in Paris", "Lyon"] := by decide

example : extract_cities "nothing here" "France" = [] := by decide

example : extract_cities "Day 3: Nice" "France" = [] := by decide

example : extract_cities "Day 1: France\nday 2: Rome\n" "France" = ["Rome"] := by decide

/-- A Python `datetime` date (year, month, day), proleptic Gregorian. -/
structure PyDate where
  year : ℕ
  month : ℕ
  day : ℕ
deriving DecidableEq

/-- Gregorian leap-year rule, as used by Python `datetime`. -/
def isLeapYear (y : ℕ) : Bool := (y % 4 = 0 ∧ y % 100 ≠ 0) ∨ y % 400 = 0

/-- Number of days in a month of a given year. -/
def daysInMonth (y m : ℕ) : ℕ :=
  if m = 2 then (if isLeapYear y then 29 else 28)
  else if m = 4 ∨ m = 6 ∨ m = 9 ∨ m = 11 then 30
  else 31

/-- Whether the components form a valid calendar date. -/
def isValidDate (d : PyDate) : Bool :=
  1 ≤ d.month ∧ d.month ≤ 12 ∧ 1 ≤ d.day ∧ d.day ≤ daysInMonth d.year d.month

/-- The day after a given date. -/
def nextDay (d : PyDate) : PyDate :=
  if d.day < daysInMonth d.year d.month then ⟨d.year, d.month, d.day + 1⟩
  else if d.month < 12 then ⟨d.year, d.month + 1, 1⟩
  else ⟨d.year + 1, 1, 1⟩

/-- `date + datetime.timedelta(days=n)`. -/
def addDays (d : PyDate) : ℕ → PyDate
  | 0 => d
  | n + 1 => nextDay (addDays d n)

/-- `f"{n:02d}"` for the small nonnegative month/day fields. -/
def two (n : ℕ) : String := if n < 10 then "0" ++ toString n else toString n

/-- `f"{d.year}-{d.month:02d}-{d.day:02d}"`. -/
def dateStr (d : PyDate) : String :=
  toString d.year ++ "-" ++ two d.month ++ "-" ++ two d.day

/-- src/backend/main.py lines 142 and 218:
    `start_date_str = f"2022-{date_obj.month:02d}-{date_obj.day:02d}"`. -/
def windowStart (date_obj : PyDate) : String :=
  "2022-" ++ two date_obj.month ++ "-" ++ two date_obj.day

/-- src/backend/main.py lines 141, 143 and 217, 219:
    `end_date = date_obj + datetime.timedelta(days=6)` followed by
    `end_date_str = f"2022-{end_date.month:02d}-{end_date.day:02d}"`. -/
def windowEnd (date_obj : PyDate) : String :=
  let end_date := addDays date_obj 6
  "2022-" ++ two end_date.month ++ "-" ++ two end_date.day

example : windowStart ⟨2024, 2, 24⟩ = "2022-02-24" := by decide
example : windowEnd ⟨2024, 2, 24⟩ = "2022-03-01" := by decide
example : windowEnd ⟨2023, 2, 24⟩ = "2022-03-02" := by decide
example : windowEnd ⟨2023, 12, 30⟩ = "2022-01-05" := by decide

/-- An exact rational as an unreduced fraction with positive denominator.  The
    numeric series of the weather payload are decimal floating point values;
    every value and operation occurring in the claims is exact in decimal, so
    exact rational arithmetic models them faithfully.  (An unreduced pair is
    used instead of Mathlib's `ℚ`, whose normalization through `Nat.gcd` the
    kernel cannot evaluate on concrete inputs.) -/
structure Frac where
  num : ℤ
  den : ℤ
deriving DecidableEq

/-- Embed an integer as a fraction. -/
def Frac.ofInt (n : ℤ) : Frac := ⟨n, 1⟩

/-- Exact addition of fractions. -/
def Frac.add (a b : Frac) : Frac := ⟨a.num * b.den + b.num * a.den, a.den * b.den⟩

/-- Python `sum(list)`: left fold of addition starting from 0. -/
def fsum (l : List Frac) : Frac := l.foldl Frac.add (Frac.ofInt 0)

/-- Exact division of a fraction by a (positive) natural count, as in
    `sum(temperatures) / len(temperatures)`. -/
def Frac.divNat (a : Frac) (n : ℕ) : Frac := ⟨a.num, a.den * n⟩

/-- Round `q` to an integer number of tenths, half to even, modelling the
    rounding of CPython's `"%.1f"` formatting on the exact decimal values that
    occur in the claims.  `Int.fdiv` is floor division, so for a positive
    denominator `f` is the floor of `10 * q` and `r / d` its fractional part. -/
def roundTenths (q : Frac) : ℤ :=
  let n := 10 * q.num
  let d := q.den
  let f := Int.fdiv n d
  let r := n - f * d
  if 2 * r < d then f else if 2 * r > d then f + 1 else if f % 2 = 0 then f else f + 1

/-- `f"{q:.1f}"`: one-decimal fixed-point rendering. -/
def fmt1 (q : Frac) : String :=
  let n := roundTenths q
  if n < 0 then "-" ++ toString ((-n) / 10) ++ "." ++ toString ((-n) % 10)
  else toString (n / 10) ++ "." ++ toString (n % 10)

example : fmt1 (Frac.ofInt 15) = "15.0" := by decide
example : fmt1 (fsum [Frac.ofInt 1, Frac.ofInt 3]) = "4.0" := by decide
example : fmt1 ⟨37, 2⟩ = "18.5" := by decide
example : fmt1 ⟨-37, 2⟩ = "-18.5" := by decide
example : fmt1 ⟨25, 100⟩ = "0.2" := by decide

/-- src/backend/main.py lines 177-186: `get_generic_climate`. -/
def get_generic_climate (country_name : String) (month : ℕ) : String :=
  let season :=
    if month = 12 ∨ month = 1 ∨ month = 2 then "winter"
    else if month = 3 ∨ month = 4 ∨ month = 5 then "spring"
    else if month = 6 ∨ month = 7 ∨ month = 8 then "summer"
    else "autumn"
  "Generally " ++ season ++ " conditions, with moderate temperatures and occasional rainfall."

/-- Result of `get_country_coords` (lines 112-129): capital plus coordinates,
    or `none` when the lookup chain fails or throws.  The pycountry /
    CountryInfo / geopy chain is an external collaborator, so the whole
    resolver is an oracle parameter below. -/
structure CountryCoords where
  lat : Frac
  lon : Frac
  capital : String

/-- The outcome of the open-meteo HTTP fetch: an exception text, or the two
    hourly series `temperature_2m` and `precipitation` (absent payload keys
    collapse to `[]` via `data.get("hourly", {}).get(..., [])`). -/
abbrev WeatherResult := Except String (List Frac × List Frac)

/-- A failed weather fetch, as the source treats it: a raised exception, or a
    payload in which either hourly series is empty. -/
def fetchFails (res : WeatherResult) : Bool :=
  match res with
  | .error _ => true
  | .ok (t, r) => t.isEmpty || r.isEmpty

/-- src/backend/main.py lines 131-174: `get_climate_info`, with the country
    resolver and the weather provider as oracles.  The provider receives the
    latitude, longitude and the two window date strings that the source
    interpolates into the URL.  The second component counts provider
    invocations.  `arrivalDate` is the parsed `YYYY-MM-DD` date. -/
def get_climate_info (get_country_coords : String → Option CountryCoords)
    (provider : Frac → Frac → String → String → WeatherResult)
    (country : String) (arrivalDate : PyDate) : String × ℕ :=
  match get_country_coords country with
  | none => ("Climate data unavailable", 0)
  | some coords =>
    match provider coords.lat coords.lon (windowStart arrivalDate) (windowEnd arrivalDate) with
    | .error _ => (get_generic_climate country arrivalDate.month, 1)
    | .ok (temperatures, precipitations) =>
      if temperatures ≠ [] ∧ precipitations ≠ [] then
        (coords.capital ++ " historical climate (based on 2022 data) for your trip period: Avg temp "
          ++ fmt1 ((fsum temperatures).divNat temperatures.length) ++ "°C, total rainfall "
          ++ fmt1 (fsum precipitations) ++ " mm", 1)
      else (get_generic_climate country arrivalDate.month, 1)

/-- src/backend/main.py lines 202-209: `get_city_coords`; the geopy call and
    its exception handling collapse into the oracle, which returns the first
    geocoding result or `none`. -/
def get_city_coords (geolocator : String → String → Option (Frac × Frac))
    (city country : String) : Option (Frac × Frac) :=
  geolocator city country

/-- src/backend/main.py lines 211-244: `get_city_climate`. -/
def get_city_climate (lat lon : Frac) (arrivalDate : PyDate)
    (provider : Frac → Frac → String → String → WeatherResult) : String :=
  match provider lat lon (windowStart arrivalDate) (windowEnd arrivalDate) with
  | .error _ => "Climate data unavailable"
  | .ok (temps, rain) =>
    if temps ≠ [] ∧ rain ≠ [] then
      "Avg temp: " ++ fmt1 ((fsum temps).divNat temps.length) ++ "°C, Rainfall: "
        ++ fmt1 (fsum rain) ++ " mm"
    else "Climate data unavailable"

/-- src/backend/main.py lines 246-258: `build_citywise_climate_summary`. -/
def build_citywise_climate_summary (geolocator : String → String → Option (Frac × Frac))
    (provider : Frac → Frac → String → String → WeatherResult)
    (itinerary_text country : String) (arrivalDate : PyDate) : String :=
  let cities := extract_cities itinerary_text country
  let summaries := cities.map (fun city =>
    match get_city_coords geolocator city country with
    | some (lat, lon) => city ++ ": " ++ get_city_climate lat lon arrivalDate provider
    | none => city ++ ": Climate data unavailable")
  joinWith "\n" summaries

/-- src/backend/main.py lines 23-27: the request body (`arrivalDate` is the
    parsed date; the source carries it as a `YYYY-MM-DD` string). -/
structure ItineraryRequest where
  country : String
  days : ℤ
  interests : List String
  arrivalDate : PyDate

/-- src/backend/main.py lines 55-63: `build_user_prompt`. -/
def build_user_prompt (country : String) (days : ℤ) (interests : List String)
    (climate : String) : String :=
  let interests_str := if interests.isEmpty then "general sightseeing" else joinWith ", " interests
  "Plan a " ++ toString days ++ "-day trip to " ++ country ++ " for someone interested in "
    ++ interests_str ++ ".\n"
    ++ "The expected climate during the trip is: " ++ climate ++ ".\n"
    ++ "Provide a day-by-day itinerary with activities, travel tips, and highlights.\n"
    ++ "At the end, include a single, comprehensive packing list that covers the entire trip based on the climate and activities.\n"
    ++ "Do not include a packing list per day."

/-- src/backend/main.py lines 66-107: the `POST /generate-itinerary` handler.
    `complete i p` is the i-th `client.chat.complete` call on user prompt `p`
    (the system prompt is the fixed constant of lines 37-51); it returns the
    completion text or the raised exception's `str(e)`.  The result pairs the
    HTTP outcome — `Except.error (500, str(e))` models
    `HTTPException(status_code=500, detail=str(e))`, `Except.ok` the
    `ItineraryResponse` body — with the number of completion calls issued. -/
def generate_itinerary (req : ItineraryRequest)
    (complete : ℕ → String → Except String String)
    (geolocator : String → String → Option (Frac × Frac))
    (provider : Frac → Frac → String → String → WeatherResult) :
    Except (ℕ × String) String × ℕ :=
  match complete 0 (build_user_prompt req.country req.days req.interests "No climate data yet.") with
  | .error e => (.error (500, e), 1)
  | .ok draft =>
    let initial_itinerary := pyStrip draft
    let climate_summary :=
      build_citywise_climate_summary geolocator provider initial_itinerary req.country req.arrivalDate
    match complete 1 (build_user_prompt req.country req.days req.interests climate_summary) with
    | .error e => (.error (500, e), 2)
    | .ok final_itinerary => (.ok (pyStrip final_itinerary), 2)

lemma takeGroup_append (g r : List Char) (hg : '\n' ∉ g) :
    takeGroup (g ++ '\n' :: r) = some (g, r) := by
  induction g with
  | nil => simp [takeGroup]
  | cons a g ih =>
    have ha : a ≠ '\n' := by intro h; exact hg (by simp [h])
    have hg2 : '\n' ∉ g := fun h => hg (by simp [h])
    simp [takeGroup, ha, ih hg2]

lemma takeGroup_some_shape {t g r : List Char} (h : takeGroup t = some (g, r)) :
    t = g ++ '\n' :: r ∧ '\n' ∉ g := by
  induction t generalizing g r with
  | nil => simp [takeGroup] at h
  | cons c rest ih =>
    by_cases hc : c = '\n'
    · subst hc
      simp only [takeGroup, if_pos rfl, Option.some.injEq, Prod.mk.injEq] at h
      obtain ⟨rfl, rfl⟩ := h
      simp
    · simp only [takeGroup, if_neg hc] at h
      cases htg : takeGroup rest with
      | none => rw [htg] at h; simp at h
      | some p =>
        obtain ⟨g0, r0⟩ := p
        rw [htg] at h
        simp only [Option.some.injEq, Prod.mk.injEq] at h
        obtain ⟨rfl, rfl⟩ := h
        obtain ⟨hshape, hmem⟩ := ih htg
        constructor
        · simp [hshape]
        · simp only [List.mem_cons, not_or]
          exact ⟨fun hcontra => hc hcontra.symm, hmem⟩

lemma matchDay_some_shape {s t : List Char} (h : matchDay s = some t) :
    ∃ c1 c2 c3, (c1 = 'D' ∨ c1 = 'd') ∧ (c2 = 'A' ∨ c2 = 'a') ∧ (c3 = 'Y' ∨ c3 = 'y') ∧
      s = c1 :: c2 :: c3 :: ' ' :: t := by
  rcases s with _ | ⟨c1, _ | ⟨c2, _ | ⟨c3, _ | ⟨c4, rest⟩⟩⟩⟩
  · simp [matchDay] at h
  · simp [matchDay] at h
  · simp [matchDay] at h
  · simp [matchDay] at h
  · simp only [matchDay] at h
    split_ifs at h with hcond
    · obtain ⟨h1, h2, h3, h4⟩ := hcond
      injection h with h
      exact ⟨c1, c2, c3, h1, h2, h3, by rw [h4, h]⟩

lemma matchDay_build {c1 c2 c3 : Char} (t : List Char)
    (h1 : c1 = 'D' ∨ c1 = 'd') (h2 : c2 = 'A' ∨ c2 = 'a') (h3 : c3 = 'Y' ∨ c3 = 'y') :
    matchDay (c1 :: c2 :: c3 :: ' ' :: t) = some t := by
  simp only [matchDay]
  exact if_pos ⟨h1, h2, h3, trivial⟩

lemma dropWhile_append_of_all {p : Char → Bool} {ds : List Char} (u : List Char)
    (h : ∀ c ∈ ds, p c = true) :
    List.dropWhile p (ds ++ u) = List.dropWhile p u := by
  induction ds with
  | nil => rfl
  | cons d ds ih =>
    have hd : p d = true := h d (by simp)
    simp only [List.cons_append, List.dropWhile_cons, hd, if_true]
    exact ih (fun c hc => h c (by simp [hc]))

lemma matchAfterDigits_some_shape {u : List Char} {g r : List Char}
    (h : matchAfterDigits u = some (g, r)) :
    u = ':' :: ' ' :: (g ++ '\n' :: r) ∧ '\n' ∉ g := by
  rcases u with _ | ⟨a, _ | ⟨b, v⟩⟩
  · simp [matchAfterDigits] at h
  · simp [matchAfterDigits] at h
  · simp only [matchAfterDigits] at h
    split_ifs at h with hab
    · obtain ⟨rfl, rfl⟩ := hab
      obtain ⟨hv, hg⟩ := takeGroup_some_shape h
      exact ⟨by rw [hv], hg⟩

lemma matchRest_some_shape {t : List Char} {g r : List Char}
    (h : matchRest t = some (g, r)) :
    ∃ ds, ds ≠ [] ∧ (∀ c ∈ ds, c.isDigit = true) ∧ '\n' ∉ g ∧
      t = ds ++ ':' :: ' ' :: (g ++ '\n' :: r) := by
  cases t with
  | nil => simp [matchRest] at h
  | cons c t0 =>
    simp only [matchRest] at h
    split_ifs at h with hd
    obtain ⟨hvshape, hg⟩ := matchAfterDigits_some_shape h
    refine ⟨(c :: t0).takeWhile Char.isDigit, ?_, ?_, hg, ?_⟩
    · simp [List.takeWhile_cons, hd]
    · intro x hx; exact List.mem_takeWhile_imp hx
    · conv_lhs => rw [(List.takeWhile_append_dropWhile (p := Char.isDigit) (l := c :: t0)).symm]
      rw [hvshape]

lemma matchRest_build {ds g r : List Char} (hne : ds ≠ [])
    (hds : ∀ c ∈ ds, c.isDigit = true) (hg : '\n' ∉ g) :
    matchRest (ds ++ ':' :: ' ' :: (g ++ '\n' :: r)) = some (g, r) := by
  cases ds with
  | nil => exact absurd rfl hne
  | cons d ds0 =>
    have hd : d.isDigit = true := hds d (by simp)
    have hdrop : List.dropWhile Char.isDigit ((d :: ds0) ++ ':' :: ' ' :: (g ++ '\n' :: r)) =
        ':' :: ' ' :: (g ++ '\n' :: r) := by
      rw [dropWhile_append_of_all _ hds, List.dropWhile_cons, if_neg (by decide)]
    simp only [List.cons_append, matchRest, hd, if_true]
    rw [show d :: (ds0 ++ ':' :: ' ' :: (g ++ '\n' :: r)) =
        (d :: ds0) ++ ':' :: ' ' :: (g ++ '\n' :: r) from rfl]
    rw [hdrop]
    rw [show matchAfterDigits (':' :: ' ' :: (g ++ '\n' :: r)) =
        takeGroup (g ++ '\n' :: r) by simp [matchAfterDigits]]
    exact takeGroup_append g r hg

lemma matchAt_some_shape {s : List Char} {g r : List Char}
    (h : matchAt s = some (g, r)) :
    ∃ c1 c2 c3 ds, (c1 = 'D' ∨ c1 = 'd') ∧ (c2 = 'A' ∨ c2 = 'a') ∧ (c3 = 'Y' ∨ c3 = 'y') ∧
      ds ≠ [] ∧ (∀ c ∈ ds, c.isDigit = true) ∧ '\n' ∉ g ∧
      s = c1 :: c2 :: c3 :: ' ' :: (ds ++ ':' :: ' ' :: (g ++ '\n' :: r)) := by
  unfold matchAt at h
  cases hmd : matchDay s with
  | none => rw [hmd] at h; simp at h
  | some t =>
    rw [hmd] at h
    simp only [] at h
    obtain ⟨c1, c2, c3, h1, h2, h3, hshape⟩ := matchDay_some_shape hmd
    obtain ⟨ds, hne, hds, hg, htshape⟩ := matchRest_some_shape h
    exact ⟨c1, c2, c3, ds, h1, h2, h3, hne, hds, hg, by rw [hshape, htshape]⟩

lemma matchAt_build {c1 c2 c3 : Char} {ds g r : List Char}
    (h1 : c1 = 'D' ∨ c1 = 'd') (h2 : c2 = 'A' ∨ c2 = 'a') (h3 : c3 = 'Y' ∨ c3 = 'y')
    (hne : ds ≠ []) (hds : ∀ c ∈ ds, c.isDigit = true) (hg : '\n' ∉ g) :
    matchAt (c1 :: c2 :: c3 :: ' ' :: (ds ++ ':' :: ' ' :: (g ++ '\n' :: r))) = some (g, r) := by
  unfold matchAt
  rw [matchDay_build _ h1 h2 h3]
  exact matchRest_build hne hds hg

lemma matchAt_length {s : List Char} {g r : List Char} (h : matchAt s = some (g, r)) :
    r.length < s.length := by
  obtain ⟨c1, c2, c3, ds, -, -, -, -, -, -, hshape⟩ := matchAt_some_shape h
  rw [hshape]
  simp [List.length_append]
  omega

lemma matchAt_append {s l : List Char} {g r : List Char} (h : matchAt s = some (g, r)) :
    matchAt (s ++ l) = some (g, r ++ l) := by
  obtain ⟨c1, c2, c3, ds, h1, h2, h3, hne, hds, hg, hshape⟩ := matchAt_some_shape h
  rw [hshape]
  have : (c1 :: c2 :: c3 :: ' ' :: (ds ++ ':' :: ' ' :: (g ++ '\n' :: r))) ++ l =
      c1 :: c2 :: c3 :: ' ' :: (ds ++ ':' :: ' ' :: (g ++ '\n' :: (r ++ l))) := by
    simp [List.append_assoc]
  rw [this]
  exact matchAt_build h1 h2 h3 hne hds hg

lemma matchAt_none_of_noNL {t : List Char} (h : '\n' ∉ t) : matchAt t = none := by
  cases hm : matchAt t with
  | none => rfl
  | some p =>
    obtain ⟨g, r⟩ := p
    obtain ⟨c1, c2, c3, ds, -, -, -, -, -, -, hshape⟩ := matchAt_some_shape hm
    exact absurd (by rw [hshape]; simp : '\n' ∈ t) h

lemma split_newline {l : List Char} (hl : '\n' ∉ l) :
    ∀ {A s r : List Char}, '\n' ∉ A → s ++ l = A ++ '\n' :: r →
      ∃ r0, s = A ++ '\n' :: r0 ∧ r = r0 ++ l := by
  intro A
  induction A with
  | nil =>
    intro s r _ heq
    cases s with
    | nil =>
      simp at heq
      rw [heq] at hl
      simp at hl
    | cons b s0 =>
      simp only [List.nil_append, List.cons_append] at heq ⊢
      injection heq with e1 e2
      exact ⟨s0, by rw [e1], e2.symm⟩
  | cons a A ih =>
    intro s r hA heq
    cases s with
    | nil =>
      simp only [List.nil_append] at heq
      rw [heq] at hl
      simp at hl
    | cons b s0 =>
      simp only [List.cons_append] at heq
      injection heq with e1 e2
      have hA0 : '\n' ∉ A := fun hmem => hA (by simp [hmem])
      obtain ⟨r0, hs0, hr⟩ := ih hA0 e2
      exact ⟨r0, by rw [e1, hs0]; rfl, hr⟩

lemma matchAt_append_inv {s l : List Char} {g r : List Char} (hl : '\n' ∉ l)
    (h : matchAt (s ++ l) = some (g, r)) :
    ∃ r0, r = r0 ++ l ∧ matchAt s = some (g, r0) := by
  obtain ⟨c1, c2, c3, ds, h1, h2, h3, hne, hds, hg, hshape⟩ := matchAt_some_shape h
  have hc1 : c1 ≠ '\n' := by rcases h1 with rfl | rfl <;> decide
  have hc2 : c2 ≠ '\n' := by rcases h2 with rfl | rfl <;> decide
  have hc3 : c3 ≠ '\n' := by rcases h3 with rfl | rfl <;> decide
  have hds_nl : '\n' ∉ ds := fun hmem => by
    have := hds _ hmem
    simp at this
  have hA : '\n' ∉ (c1 :: c2 :: c3 :: ' ' :: (ds ++ ':' :: ' ' :: g)) := by
    intro hmem
    simp only [List.mem_cons, List.mem_append] at hmem
    rcases hmem with e | e | e | e | e | e | e | e
    · exact hc1 e.symm
    · exact hc2 e.symm
    · exact hc3 e.symm
    · exact absurd e (by decide)
    · exact hds_nl e
    · exact absurd e (by decide)
    · exact absurd e (by decide)
    · exact hg e
  have heq : s ++ l = (c1 :: c2 :: c3 :: ' ' :: (ds ++ ':' :: ' ' :: g)) ++ '\n' :: r := by
    rw [hshape]
    simp [List.append_assoc]
  obtain ⟨r0, hs, hr⟩ := split_newline hl hA heq
  refine ⟨r0, hr, ?_⟩
  have hs2 : s = c1 :: c2 :: c3 :: ' ' :: (ds ++ ':' :: ' ' :: (g ++ '\n' :: r0)) := by
    rw [hs]
    simp [List.append_assoc]
  rw [hs2]
  exact matchAt_build h1 h2 h3 hne hds hg

lemma findAllAux_congr : ∀ (n m : ℕ) (s : List Char), s.length ≤ n → s.length ≤ m →
    findAllAux n s = findAllAux m s := by
  intro n
  induction n using Nat.strong_induction_on with
  | _ n ih =>
    intro m s hn hm
    cases n with
    | zero =>
      have hs : s = [] := List.eq_nil_of_length_eq_zero (Nat.le_zero.mp hn)
      subst hs
      cases m with
      | zero => rfl
      | succ m0 => simp [findAllAux, matchAt, matchDay]
    | succ n0 =>
      cases m with
      | zero =>
        have hs : s = [] := List.eq_nil_of_length_eq_zero (Nat.le_zero.mp hm)
        subst hs
        simp [findAllAux, matchAt, matchDay]
      | succ m0 =>
        cases hma : matchAt s with
        | some p =>
          obtain ⟨g, r⟩ := p
          have hlen := matchAt_length hma
          simp only [findAllAux, hma]
          rw [ih n0 (by omega) m0 r (by omega) (by omega)]
        | none =>
          cases s with
          | nil => simp [findAllAux, hma]
          | cons c rest =>
            simp only [findAllAux, hma]
            have hr : rest.length + 1 = (c :: rest).length := by simp
            exact ih n0 (by omega) m0 rest (by omega) (by omega)

lemma findAll_pos {s g r : List Char} (h : matchAt s = some (g, r)) :
    findAll s = g :: findAll r := by
  have hlen := matchAt_length h
  unfold findAll
  cases hs : s.length with
  | zero => omega
  | succ k =>
    simp only [findAllAux, h]
    congr 1
    exact findAllAux_congr k r.length r (by omega) le_rfl

lemma findAll_neg {c : Char} {rest : List Char} (h : matchAt (c :: rest) = none) :
    findAll (c :: rest) = findAll rest := by
  unfold findAll
  simp only [List.length_cons, findAllAux, h]

lemma findAll_noNL {t : List Char} (h : '\n' ∉ t) : findAll t = [] := by
  induction t with
  | nil => rfl
  | cons c rest ih =>
    have hm : matchAt (c :: rest) = none := matchAt_none_of_noNL h
    rw [findAll_neg hm]
    exact ih (fun hx => h (by simp [hx]))

lemma findAll_append_noNL {l : List Char} (hl : '\n' ∉ l) :
    ∀ (n : ℕ) (s : List Char), s.length ≤ n → findAll (s ++ l) = findAll s := by
  intro n
  induction n using Nat.strong_induction_on with
  | _ n ih =>
    intro s hn
    cases hma : matchAt s with
    | some p =>
      obtain ⟨g, r⟩ := p
      have hlen := matchAt_length hma
      rw [findAll_pos (matchAt_append hma), findAll_pos hma]
      cases n with
      | zero => omega
      | succ n0 =>
        rw [ih n0 (by omega) r (by omega)]
    | none =>
      cases s with
      | nil => simpa using findAll_noNL hl
      | cons c rest =>
        have hml : matchAt ((c :: rest) ++ l) = none := by
          cases hx : matchAt ((c :: rest) ++ l) with
          | none => rfl
          | some p =>
            obtain ⟨g, r⟩ := p
            obtain ⟨r0, -, hs⟩ := matchAt_append_inv hl hx
            rw [hma] at hs
            exact absurd hs (by simp)
        rw [show (c :: rest) ++ l = c :: (rest ++ l) from rfl] at hml
        rw [show (c :: rest) ++ l = c :: (rest ++ l) from rfl, findAll_neg hml, findAll_neg hma]
        cases n with
        | zero => simp at hn
        | succ n0 => exact ih n0 (by omega) rest (by simp at hn; omega)

lemma string_data_append (s t : String) : (s ++ t).data = s.data ++ t.data :=
  String.data_append s t

lemma colon_mem_city_line (a b : String) : ':' ∈ (a ++ ": " ++ b).data := by
  rw [string_data_append, string_data_append]
  simp

lemma colon_mem_unavailable_line (a : String) : ':' ∈ (a ++ ": Climate data unavailable").data := by
  rw [string_data_append]
  simp

lemma colon_mem_joinWith {x : String} (xs : List String) (hx : ':' ∈ x.data) :
    ':' ∈ (joinWith "\n" (x :: xs)).data := by
  cases xs with
  | nil => exact hx
  | cons y ys =>
    simp only [joinWith, string_data_append]
    simp [hx]

lemma summary_ne_placeholder (geolocator : String → String → Option (Frac × Frac))
    (provider : Frac → Frac → String → String → WeatherResult)
    (itinerary_text country : String) (arrivalDate : PyDate)
    (h : extract_cities itinerary_text country ≠ []) :
    build_citywise_climate_summary geolocator provider itinerary_text country arrivalDate ≠
      "No climate data yet." := by
  unfold build_citywise_climate_summary
  cases hc : extract_cities itinerary_text country with
  | nil => exact absurd hc h
  | cons city rest =>
    intro heq
    have hcolon : ':' ∈ (joinWith "\n" ((city :: rest).map (fun city =>
        match get_city_coords geolocator city country with
        | some (lat, lon) => city ++ ": " ++ get_city_climate lat lon arrivalDate provider
        | none => city ++ ": Climate data unavailable"))).data := by
      rw [List.map_cons]
      apply colon_mem_joinWith
      cases hgc : get_city_coords geolocator city country with
      | some p =>
        obtain ⟨lat, lon⟩ := p
        simp only [hgc]
        exact colon_mem_city_line city (get_city_climate lat lon arrivalDate provider)
      | none =>
        simp only [hgc]
        exact colon_mem_unavailable_line city
    have heq2 : joinWith "\n" (List.map (fun city =>
        match get_city_coords geolocator city country with
        | some (lat, lon) => city ++ ": " ++ get_city_climate lat lon arrivalDate provider
        | none => city ++ ": Climate data unavailable") (city :: rest)) =
        "No climate data yet." := heq
    rw [heq2] at hcolon
    exact absurd hcolon (by decide)

lemma generate_itinerary_eq (req : ItineraryRequest)
    (complete : ℕ → String → Except String String)
    (geolocator : String → String → Option (Frac × Frac))
    (provider : Frac → Frac → String → String → WeatherResult) :
    generate_itinerary req complete geolocator provider =
      match complete 0 (build_user_prompt req.country req.days req.interests "No climate data yet.") with
      | .error e => (.error (500, e), 1)
      | .ok draft =>
        match complete 1 (build_user_prompt req.country req.days req.interests
            (build_citywise_climate_summary geolocator provider (pyStrip draft) req.country
              req.arrivalDate)) with
        | .error e => (.error (500, e), 2)
        | .ok final_itinerary => (.ok (pyStrip final_itinerary), 2) := rfl

lemma generate_itinerary_ok {req : ItineraryRequest}
    {complete : ℕ → String → Except String String}
    {geolocator : String → String → Option (Frac × Frac)}
    {provider : Frac → Frac → String → String → WeatherResult} {draft final : String}
    (h0 : complete 0 (build_user_prompt req.country req.days req.interests "No climate data yet.") =
      .ok draft)
    (h1 : complete 1 (build_user_prompt req.country req.days req.interests
        (build_citywise_climate_summary geolocator provider (pyStrip draft) req.country
          req.arrivalDate)) = .ok final) :
    generate_itinerary req complete geolocator provider = (.ok (pyStrip final), 2) := by
  rw [generate_itinerary_eq]
  simp only [h0, h1]

/-- C5: for every month 1..12 (and any country argument), `get_generic_climate`
    returns exactly one of the four fixed season strings embedded in the fixed
    template, partitioned {12,1,2} winter, {3,4,5} spring, {6,7,8} summer,
    {9,10,11} autumn; being a total function it has no failure mode. -/
theorem c5_season_fallback (country : String) (m : ℕ) (h1 : 1 ≤ m) (h2 : m ≤ 12) :
    ((m = 12 ∨ m = 1 ∨ m = 2) → get_generic_climate country m =
      "Generally winter conditions, with moderate temperatures and occasional rainfall.") ∧
    ((m = 3 ∨ m = 4 ∨ m = 5) → get_generic_climate country m =
      "Generally spring conditions, with moderate temperatures and occasional rainfall.") ∧
    ((m = 6 ∨ m = 7 ∨ m = 8) → get_generic_climate country m =
      "Generally summer conditions, with moderate temperatures and occasional rainfall.") ∧
    ((m = 9 ∨ m = 10 ∨ m = 11) → get_generic_climate country m =
      "Generally autumn conditions, with moderate temperatures and occasional rainfall.") ∧
    get_generic_climate country m ∈
      ["Generally winter conditions, with moderate temperatures and occasional rainfall.",
       "Generally spring conditions, with moderate temperatures and occasional rainfall.",
       "Generally summer conditions, with moderate temperatures and occasional rainfall.",
       "Generally autumn conditions, with moderate temperatures and occasional rainfall."] := by
  interval_cases m <;> simp [get_generic_climate]

/-- Witness for C5 at month 4. -/
theorem c5_season_fallback_witness :
    (1 ≤ 4 ∧ 4 ≤ 12) ∧ get_generic_climate "France" 4 =
      "Generally spring conditions, with moderate temperatures and occasional rainfall." :=
  ⟨by decide, (c5_season_fallback "France" 4 (by decide) (by decide)).2.1 (Or.inr (Or.inl rfl))⟩

/-- C6: when the country resolver produces no coordinates, the country-level
    climate fetcher returns exactly the literal "Climate data unavailable" and
    invokes the weather provider zero times. -/
theorem c6_unresolved_country (get_country_coords : String → Option CountryCoords)
    (provider : Frac → Frac → String → String → WeatherResult)
    (country : String) (arrivalDate : PyDate)
    (h : get_country_coords country = none) :
    get_climate_info get_country_coords provider country arrivalDate =
      ("Climate data unavailable", 0) := by
  unfold get_climate_info
  rw [h]

/-- Witness for C6 with an always-failing resolver. -/
theorem c6_unresolved_country_witness :
    ((fun (_ : String) => (none : Option CountryCoords)) "Atlantis" = none) ∧
    get_climate_info (fun _ => none) (fun _ _ _ _ => .ok ([], [])) "Atlantis" ⟨2024, 1, 1⟩ =
      ("Climate data unavailable", 0) :=
  ⟨rfl, c6_unresolved_country (fun _ => none) (fun _ _ _ _ => .ok ([], [])) "Atlantis"
    ⟨2024, 1, 1⟩ rfl⟩

/-- C4: when the provider returns non-empty hourly temperature and
    precipitation series, both climate fetchers report the arithmetic mean of
    the temperature samples and the sum of the precipitation samples, each
    rendered by the one-decimal formatter, inside their fixed sentence
    templates. -/
theorem c4_numeric_summary (get_country_coords : String → Option CountryCoords)
    (provider : Frac → Frac → String → String → WeatherResult)
    (country : String) (arrivalDate : PyDate) (coords : CountryCoords)
    (lat lon : Frac) (temps rains : List Frac)
    (hres : get_country_coords country = some coords)
    (hprov : provider coords.lat coords.lon (windowStart arrivalDate) (windowEnd arrivalDate) =
      .ok (temps, rains))
    (hprov2 : provider lat lon (windowStart arrivalDate) (windowEnd arrivalDate) =
      .ok (temps, rains))
    (ht : temps ≠ []) (hr : rains ≠ []) :
    (get_climate_info get_country_coords provider country arrivalDate).1 =
      coords.capital ++ " historical climate (based on 2022 data) for your trip period: Avg temp "
        ++ fmt1 ((fsum temps).divNat temps.length) ++ "°C, total rainfall "
        ++ fmt1 (fsum rains) ++ " mm" ∧
    get_city_climate lat lon arrivalDate provider =
      "Avg temp: " ++ fmt1 ((fsum temps).divNat temps.length) ++ "°C, Rainfall: "
        ++ fmt1 (fsum rains) ++ " mm" := by
  constructor
  · unfold get_climate_info
    rw [hres]
    simp only [hprov]
    rw [if_pos ⟨ht, hr⟩]
  · unfold get_city_climate
    rw [hprov2]
    simp only []
    rw [if_pos ⟨ht, hr⟩]

/-- Witness for C4: series [10.0, 20.0] and [1.0, 3.0] give "Avg temp 15.0°C"
    and "total rainfall 4.0 mm" in both templates. -/
theorem c4_numeric_summary_witness :
    ((fun (_ : String) => some (⟨⟨4857, 100⟩, ⟨235, 100⟩, "Paris"⟩ : CountryCoords)) "France" =
        some ⟨⟨4857, 100⟩, ⟨235, 100⟩, "Paris"⟩ ∧
      ([⟨10, 1⟩, ⟨20, 1⟩] : List Frac) ≠ [] ∧ ([⟨1, 1⟩, ⟨3, 1⟩] : List Frac) ≠ []) ∧
    (get_climate_info (fun _ => some ⟨⟨4857, 100⟩, ⟨235, 100⟩, "Paris"⟩)
        (fun _ _ _ _ => .ok ([⟨10, 1⟩, ⟨20, 1⟩], [⟨1, 1⟩, ⟨3, 1⟩])) "France" ⟨2024, 4, 10⟩).1 =
      "Paris historical climate (based on 2022 data) for your trip period: Avg temp 15.0°C, total rainfall 4.0 mm" ∧
    get_city_climate ⟨4857, 100⟩ ⟨235, 100⟩ ⟨2024, 4, 10⟩
        (fun _ _ _ _ => .ok ([⟨10, 1⟩, ⟨20, 1⟩], [⟨1, 1⟩, ⟨3, 1⟩])) =
      "Avg temp: 15.0°C, Rainfall: 4.0 mm" := by
  have h := c4_numeric_summary (fun _ => some ⟨⟨4857, 100⟩, ⟨235, 100⟩, "Paris"⟩)
    (fun _ _ _ _ => .ok ([⟨10, 1⟩, ⟨20, 1⟩], [⟨1, 1⟩, ⟨3, 1⟩])) "France" ⟨2024, 4, 10⟩
    ⟨⟨4857, 100⟩, ⟨235, 100⟩, "Paris"⟩ ⟨4857, 100⟩ ⟨235, 100⟩ [⟨10, 1⟩, ⟨20, 1⟩] [⟨1, 1⟩, ⟨3, 1⟩]
    rfl rfl rfl (by decide) (by decide)
  exact ⟨⟨rfl, by decide, by decide⟩, h.1.trans (by decide), h.2.trans (by decide)⟩

/-- C3 counterexample: with a weather fetch that raises, the per-city climate
    fetcher (which takes the coordinate) returns the literal
    "Climate data unavailable", not the season sentence of the reference
    month (January would give the winter sentence). -/
theorem c3_counterexample :
    get_city_climate ⟨4857, 100⟩ ⟨235, 100⟩ ⟨2024, 1, 15⟩ (fun _ _ _ _ => .error "network error") =
      "Climate data unavailable" ∧
    "Climate data unavailable" ≠ get_generic_climate "France" 1 := by decide

/-- C3 amended: on any failed weather query (exception or an empty series on
    either side) the country-level fetcher falls back to the Season Fallback
    sentence for the reference month, while the per-city fetcher returns the
    literal "Climate data unavailable"; both series must be non-empty for a
    numeric summary in either path. -/
theorem c3_failure_fallback (get_country_coords : String → Option CountryCoords)
    (provider : Frac → Frac → String → String → WeatherResult)
    (country : String) (arrivalDate : PyDate) (coords : CountryCoords) (lat lon : Frac)
    (hres : get_country_coords country = some coords)
    (hfail : ∀ la lo s e, fetchFails (provider la lo s e) = true) :
    (get_climate_info get_country_coords provider country arrivalDate).1 =
      get_generic_climate country arrivalDate.month ∧
    get_city_climate lat lon arrivalDate provider = "Climate data unavailable" := by
  constructor
  · unfold get_climate_info
    rw [hres]
    simp only []
    cases hp : provider coords.lat coords.lon (windowStart arrivalDate) (windowEnd arrivalDate) with
    | error e => simp only [hp]
    | ok p =>
      obtain ⟨t, r⟩ := p
      have hf := hfail coords.lat coords.lon (windowStart arrivalDate) (windowEnd arrivalDate)
      rw [hp] at hf
      simp only [fetchFails, Bool.or_eq_true, List.isEmpty_iff] at hf
      have hne : ¬(t ≠ [] ∧ r ≠ []) := by rcases hf with h | h <;> simp [h]
      simp only [hp]
      rw [if_neg hne]
  · unfold get_city_climate
    cases hp : provider lat lon (windowStart arrivalDate) (windowEnd arrivalDate) with
    | error e => simp only [hp]
    | ok p =>
      obtain ⟨t, r⟩ := p
      have hf := hfail lat lon (windowStart arrivalDate) (windowEnd arrivalDate)
      rw [hp] at hf
      simp only [fetchFails, Bool.or_eq_true, List.isEmpty_iff] at hf
      have hne : ¬(t ≠ [] ∧ r ≠ []) := by rcases hf with h | h <;> simp [h]
      simp only [hp]
      rw [if_neg hne]

/-- Witness for the amended C3 with partial data (temperatures present,
    precipitation empty). -/
theorem c3_failure_fallback_witness :
    ((fun (_ : String) => some (⟨⟨3568, 100⟩, ⟨13969, 100⟩, "Tokyo"⟩ : CountryCoords)) "Japan" =
        some ⟨⟨3568, 100⟩, ⟨13969, 100⟩, "Tokyo"⟩ ∧
      (∀ la lo s e, fetchFails ((fun (_ _ : Frac) (_ _ : String) =>
        (.ok ([⟨10, 1⟩], []) : WeatherResult)) la lo s e) = true)) ∧
    (get_climate_info (fun _ => some ⟨⟨3568, 100⟩, ⟨13969, 100⟩, "Tokyo"⟩)
        (fun _ _ _ _ => .ok ([⟨10, 1⟩], [])) "Japan" ⟨2024, 7, 1⟩).1 =
      "Generally summer conditions, with moderate temperatures and occasional rainfall." ∧
    get_city_climate ⟨3568, 100⟩ ⟨13969, 100⟩ ⟨2024, 7, 1⟩ (fun _ _ _ _ => .ok ([⟨10, 1⟩], [])) =
      "Climate data unavailable" := by
  have h := c3_failure_fallback (fun _ => some ⟨⟨3568, 100⟩, ⟨13969, 100⟩, "Tokyo"⟩)
    (fun _ _ _ _ => .ok ([⟨10, 1⟩], [])) "Japan" ⟨2024, 7, 1⟩
    ⟨⟨3568, 100⟩, ⟨13969, 100⟩, "Tokyo"⟩ ⟨3568, 100⟩ ⟨13969, 100⟩ rfl
    (fun _ _ _ _ => (by decide : fetchFails (Except.ok ([⟨10, 1⟩], [])) = true))
  exact ⟨⟨rfl, fun _ _ _ _ => (by decide : fetchFails (Except.ok ([⟨10, 1⟩], [])) = true)⟩,
    h.1.trans (by decide), h.2⟩

/-- C8 counterexample: the query window is not a function of month/day alone
    and does not always end six days after the start.  References 2024-02-24
    and 2023-02-24 share month and day yet produce different end dates
    (2024 is a leap year), and the 2024 window's end "2022-03-01" is not the
    date six days after the start 2022-02-24 (that would be 2022-03-02). -/
theorem c8_counterexample :
    windowStart ⟨2024, 2, 24⟩ = "2022-02-24" ∧
    windowEnd ⟨2024, 2, 24⟩ = "2022-03-01" ∧
    windowEnd ⟨2023, 2, 24⟩ = "2022-03-02" ∧
    windowEnd ⟨2024, 2, 24⟩ ≠ windowEnd ⟨2023, 2, 24⟩ ∧
    windowEnd ⟨2024, 2, 24⟩ ≠ dateStr (addDays ⟨2022, 2, 24⟩ 6) := by decide

/-- C8 amended: in both fetch paths the window start is the reference's
    month/day placed on the fixed year 2022; the end is the month/day of the
    date six days after the reference computed in the reference's own calendar
    year, then placed on 2022.  Consequently the window really spans seven
    calendar days of 2022 when the reference year is 2022 and the six-day
    extension does not cross into 2023; otherwise the end can drift from
    "start + 6 days" (leap-day alignment) or wrap to the start of 2022. -/
theorem c8_window (ref : PyDate) (hv : isValidDate ref = true) :
    windowStart ref = "2022-" ++ two ref.month ++ "-" ++ two ref.day ∧
    windowEnd ref = "2022-" ++ two (addDays ref 6).month ++ "-" ++ two (addDays ref 6).day ∧
    (ref.year = 2022 → (addDays ref 6).year = 2022 →
      windowStart ref = dateStr ref ∧ windowEnd ref = dateStr (addDays ref 6)) := by
  refine ⟨rfl, rfl, fun hy he => ⟨?_, ?_⟩⟩
  · unfold windowStart dateStr
    rw [hy]
    rfl
  · unfold windowEnd dateStr
    rw [he]
    rfl

/-- Witness for the amended C8 at the in-year 2022 reference 2022-04-10. -/
theorem c8_window_witness :
    (isValidDate ⟨2022, 4, 10⟩ = true ∧ (⟨2022, 4, 10⟩ : PyDate).year = 2022 ∧
      (addDays ⟨2022, 4, 10⟩ 6).year = 2022) ∧
    windowStart ⟨2022, 4, 10⟩ = "2022-04-10" ∧ windowEnd ⟨2022, 4, 10⟩ = "2022-04-16" := by
  have h := (c8_window ⟨2022, 4, 10⟩ (by decide)).2.2 rfl (by decide)
  exact ⟨⟨by decide, rfl, by decide⟩, h.1.trans (by decide), h.2.trans (by decide)⟩

/-- C1 counterexample: the extractor performs no boilerplate stripping, so on
    the two example lines it keeps "Arrival in Paris" whole and "Paris" is not
    among the results. -/
theorem c1_counterexample :
    "Paris" ∉ extract_cities "Day 1: Arrival in Paris\nDay 2: Lyon, France\n" "France" ∧
    "Arrival in Paris" ∈ extract_cities "Day 1: Arrival in Paris\nDay 2: Lyon, France\n" "France" := by
  decide

/-- C1 amended: the extractor strips no boilerplate phrase; each matched
    heading remainder is truncated at the first comma, trimmed, excluded when
    equal (case-insensitively) to the country, and de-duplicated, so the
    example text yields the set {"Arrival in Paris", "Lyon"}. -/
theorem c1_extractor_example :
    (extract_cities "Day 1: Arrival in Paris\nDay 2: Lyon, France\n" "France").toFinset =
      {"Arrival in Paris", "Lyon"} ∧
    (extract_cities "Day 1: Arrival in Paris\nDay 2: Lyon, France\n" "France").length = 2 := by
  decide

/-- C10: the pattern requires a terminating newline, so a final line that looks
    like a "Day N: Place" heading but is not newline-terminated is never
    matched: appending such a newline-free line to any text leaves the
    extracted collection unchanged, silently omitting its place name. -/
theorem c10_unterminated_last_line (s l country : String)
    (hl : '\n' ∉ l.data)
    (hhead : (matchAt (l.data ++ ['\n'])).isSome = true) :
    extract_cities (s ++ l) country = extract_cities s country := by
  unfold extract_cities
  rw [string_data_append, findAll_append_noNL hl s.data.length s.data le_rfl]

/-- Witness for C10: "Day 2: Nice" without a newline is dropped while the
    terminated "Day 1: Rome" line is kept. -/
theorem c10_unterminated_last_line_witness :
    ('\n' ∉ "Day 2: Nice".data ∧ (matchAt ("Day 2: Nice".data ++ ['\n'])).isSome = true) ∧
    extract_cities ("Day 1: Rome\n" ++ "Day 2: Nice") "France" = ["Rome"] :=
  ⟨by decide, (c10_unterminated_last_line "Day 1: Rome\n" "Day 2: Nice" "France" (by decide)
    (by decide)).trans (by decide)⟩

/-- C7: when the (stripped) draft contains no heading match, the extractor
    returns the empty collection, the composite climate block is the empty
    string, and the two-pass flow still completes successfully with the empty
    block spliced into the second prompt. -/
theorem c7_no_day_pattern (req : ItineraryRequest)
    (complete : ℕ → String → Except String String)
    (geolocator : String → String → Option (Frac × Frac))
    (provider : Frac → Frac → String → String → WeatherResult)
    (draft final : String)
    (hdraft : findAll (pyStrip draft).data = [])
    (h0 : complete 0 (build_user_prompt req.country req.days req.interests "No climate data yet.") =
      .ok draft)
    (h1 : complete 1 (build_user_prompt req.country req.days req.interests "") = .ok final) :
    extract_cities (pyStrip draft) req.country = [] ∧
    build_citywise_climate_summary geolocator provider (pyStrip draft) req.country
      req.arrivalDate = "" ∧
    generate_itinerary req complete geolocator provider = (.ok (pyStrip final), 2) := by
  have hext : extract_cities (pyStrip draft) req.country = [] := by
    unfold extract_cities
    rw [hdraft]
    rfl
  have hsum : build_citywise_climate_summary geolocator provider (pyStrip draft) req.country
      req.arrivalDate = "" := by
    unfold build_citywise_climate_summary
    rw [hext]
    rfl
  refine ⟨hext, hsum, ?_⟩
  exact generate_itinerary_ok h0 (by rw [hsum]; exact h1)

/-- Witness for C7 with a draft lacking any "Day N:" heading. -/
theorem c7_no_day_pattern_witness :
    (findAll (pyStrip "a quiet trip").data = [] ∧
      (fun (i : ℕ) (_ : String) => (if i = 0 then Except.ok "a quiet trip" else Except.ok "done" : Except String String)) 0
        (build_user_prompt "Italy" 3 ["food"] "No climate data yet.") = Except.ok "a quiet trip" ∧
      (fun (i : ℕ) (_ : String) => (if i = 0 then Except.ok "a quiet trip" else Except.ok "done" : Except String String)) 1
        (build_user_prompt "Italy" 3 ["food"] "") = Except.ok "done") ∧
    extract_cities (pyStrip "a quiet trip") "Italy" = [] ∧
    build_citywise_climate_summary (fun _ _ => none) (fun _ _ _ _ => .error "x")
      (pyStrip "a quiet trip") "Italy" ⟨2024, 4, 10⟩ = "" ∧
    generate_itinerary ⟨"Italy", 3, ["food"], ⟨2024, 4, 10⟩⟩
      (fun i _ => (if i = 0 then Except.ok "a quiet trip" else Except.ok "done" : Except String String))
      (fun _ _ => none) (fun _ _ _ _ => .error "x") = (.ok (pyStrip "done"), 2) := by
  have h := c7_no_day_pattern ⟨"Italy", 3, ["food"], ⟨2024, 4, 10⟩⟩
    (fun i _ => (if i = 0 then Except.ok "a quiet trip" else Except.ok "done" : Except String String))
    (fun _ _ => none) (fun _ _ _ _ => .error "x") "a quiet trip" "done"
    (by decide) rfl rfl
  exact ⟨⟨by decide, rfl, rfl⟩, h⟩

/-- C2: whenever both completion calls succeed, the endpoint issues exactly two
    completion calls — the first on the prompt embedding the placeholder
    "No climate data yet.", the second on the prompt embedding the composite
    per-city climate block — and if at least one city was extracted from the
    trimmed draft, that block is textually distinct from the placeholder. -/
theorem c2_two_pass (req : ItineraryRequest)
    (complete : ℕ → String → Except String String)
    (geolocator : String → String → Option (Frac × Frac))
    (provider : Frac → Frac → String → String → WeatherResult)
    (draft final : String)
    (h0 : complete 0 (build_user_prompt req.country req.days req.interests "No climate data yet.") =
      .ok draft)
    (h1 : complete 1 (build_user_prompt req.country req.days req.interests
        (build_citywise_climate_summary geolocator provider (pyStrip draft) req.country
          req.arrivalDate)) = .ok final) :
    generate_itinerary req complete geolocator provider = (.ok (pyStrip final), 2) ∧
    (extract_cities (pyStrip draft) req.country ≠ [] →
      build_citywise_climate_summary geolocator provider (pyStrip draft) req.country
        req.arrivalDate ≠ "No climate data yet.") :=
  ⟨generate_itinerary_ok h0 h1,
   fun hne => summary_ne_placeholder geolocator provider (pyStrip draft) req.country
     req.arrivalDate hne⟩

/-- Witness for C2 with a draft containing the heading "Day 1: Rome". -/
theorem c2_two_pass_witness :
    ((fun (i : ℕ) (_ : String) => (if i = 0 then Except.ok "Day 1: Rome\nmore" else Except.ok "done" : Except String String)) 0
        (build_user_prompt "Italy" 3 ["food"] "No climate data yet.") = Except.ok "Day 1: Rome\nmore" ∧
      extract_cities (pyStrip "Day 1: Rome\nmore") "Italy" ≠ []) ∧
    generate_itinerary ⟨"Italy", 3, ["food"], ⟨2024, 4, 10⟩⟩
      (fun i _ => (if i = 0 then Except.ok "Day 1: Rome\nmore" else Except.ok "done" : Except String String))
      (fun _ _ => none) (fun _ _ _ _ => .error "x") = (.ok (pyStrip "done"), 2) ∧
    build_citywise_climate_summary (fun _ _ => none) (fun _ _ _ _ => .error "x")
      (pyStrip "Day 1: Rome\nmore") "Italy" ⟨2024, 4, 10⟩ ≠ "No climate data yet." := by
  have h := c2_two_pass ⟨"Italy", 3, ["food"], ⟨2024, 4, 10⟩⟩
    (fun i _ => (if i = 0 then Except.ok "Day 1: Rome\nmore" else Except.ok "done" : Except String String))
    (fun _ _ => none) (fun _ _ _ _ => .error "x") "Day 1: Rome\nmore" "done" rfl rfl
  exact ⟨⟨rfl, by decide⟩, h.1, h.2 (by decide)⟩

/-- C9: if either completion call raises, the exception is caught at the top
    of the handler and surfaced as HTTP status 500 whose detail is the
    exception's text; no itinerary value is produced in that case. -/
theorem c9_completion_failure (req : ItineraryRequest)
    (complete : ℕ → String → Except String String)
    (geolocator : String → String → Option (Frac × Frac))
    (provider : Frac → Frac → String → String → WeatherResult)
    (e : String)
    (h : complete 0 (build_user_prompt req.country req.days req.interests "No climate data yet.") =
        .error e ∨
      ∃ draft,
        complete 0 (build_user_prompt req.country req.days req.interests "No climate data yet.") =
          .ok draft ∧
        complete 1 (build_user_prompt req.country req.days req.interests
          (build_citywise_climate_summary geolocator provider (pyStrip draft) req.country
            req.arrivalDate)) = .error e) :
    (generate_itinerary req complete geolocator provider).1 = .error (500, e) := by
  rw [generate_itinerary_eq]
  rcases h with h | ⟨draft, h0, h1⟩
  · simp [h]
  · simp [h0, h1]

/-- Witness for C9 with a completion service that always raises. -/
theorem c9_completion_failure_witness :
    ((fun (_ : ℕ) (_ : String) => (Except.error "quota exceeded" : Except String String)) 0
      (build_user_prompt "Italy" 3 ["food"] "No climate data yet.") =
        Except.error "quota exceeded") ∧
    (generate_itinerary ⟨"Italy", 3, ["food"], ⟨2024, 4, 10⟩⟩
      (fun _ _ => Except.error "quota exceeded") (fun _ _ => none)
      (fun _ _ _ _ => .error "x")).1 = .error (500, "quota exceeded") :=
  ⟨rfl, c9_completion_failure ⟨"Italy", 3, ["food"], ⟨2024, 4, 10⟩⟩
    (fun _ _ => Except.error "quota exceeded") (fun _ _ => none) (fun _ _ _ _ => .error "x")
    "quota exceeded" (Or.inl rfl)⟩
